import Mathlib

/-!
A verification development for the trading-execution engine of `ai_smif_v2.1`
(`components/trading_execution_engine/`): the `TradeSignal` data model and its
dict serialization, the `OrderManager` persistence layer (`orders`,
`failed_trades`, `execution_metrics` tables), and the `ExecutionEngine`
submit / retry / recovery / liquidation pipelines.

Modelling conventions, applied throughout:
* Python floats are modelled as exact rationals `ℚ`.
* Python `datetime` objects are modelled as naive calendar datetimes
  (`PyDateTime`); timezone offsets and wall-clock reads (`utcnow`,
  `datetime.now`) are outside the model, so wall-clock-valued columns
  (`timestamp`, `last_retry`, `resolved_at`, `execution_latency`) are omitted
  from the table models.
* Broker (Alpaca) calls are modelled by a `Broker` record of oracles indexed
  by call number; engine state (`EngState`) carries the database tables, the
  `_active_orders` map, and traces of outbound broker calls.
* Python exceptions are modelled with `Except String`; a raised exception is
  an `Except.error` carrying the message.  SQLite itself is assumed not to
  fail (no `sqlite3.Error` paths).
* A dict field that is either absent or `None` is modelled as an `Option`
  that is `none` (the code paths under study never distinguish the two).
-/

namespace AiSmif

/-- Naive Python `datetime`: the fields `datetime.datetime` stores, without a
timezone.  Python's constructor enforces the field ranges captured below by
`PyDateTime.Valid`. -/
structure PyDateTime where
  year : Nat
  month : Nat
  day : Nat
  hour : Nat
  minute : Nat
  second : Nat
  microsecond : Nat
deriving DecidableEq, Repr

/-- The field ranges Python's `datetime` constructor enforces (day upper bound
relaxed to 31; the month-aware bound is stricter, so every real `datetime`
satisfies this predicate). -/
def PyDateTime.Valid (t : PyDateTime) : Prop :=
  1 ≤ t.year ∧ t.year ≤ 9999 ∧ 1 ≤ t.month ∧ t.month ≤ 12 ∧
  1 ≤ t.day ∧ t.day ≤ 31 ∧ t.hour ≤ 23 ∧ t.minute ≤ 59 ∧
  t.second ≤ 59 ∧ t.microsecond ≤ 999999

instance (t : PyDateTime) : Decidable t.Valid := by
  unfold PyDateTime.Valid; infer_instance

/-- The character for a decimal digit `d` (`0 ≤ d ≤ 9`). -/
def digitChar (d : Nat) : Char := Char.ofNat (48 + d)

/-- `v` printed in decimal, zero-padded to exactly `n` digits (most
significant first) — the fixed-width fields of `datetime.isoformat`. -/
def padDigits : Nat → Nat → List Char
  | 0, _ => []
  | n + 1, v => padDigits n (v / 10) ++ [digitChar (v % 10)]

/-- Read exactly `n` decimal digits from the front of `l`, accumulating onto
`acc`; `none` if a non-digit or the end of input is hit. -/
def readDigitsAux : Nat → Nat → List Char → Option (Nat × List Char)
  | 0, acc, l => some (acc, l)
  | n + 1, acc, c :: l =>
      if c.isDigit then readDigitsAux n (acc * 10 + (c.toNat - 48)) l else none
  | _ + 1, _, [] => none

/-- Read exactly `n` decimal digits from the front of `l`. -/
def readDigits (n : Nat) (l : List Char) : Option (Nat × List Char) :=
  readDigitsAux n 0 l

/-- Consume an expected literal character. -/
def expectChar (c : Char) : List Char → Option (List Char)
  | x :: l => if x = c then some l else none
  | [] => none

theorem digitChar_isDigit {d : Nat} (hd : d ≤ 9) : (digitChar d).isDigit = true := by
  interval_cases d <;> decide

theorem digitChar_toNat {d : Nat} (hd : d ≤ 9) : (digitChar d).toNat - 48 = d := by
  interval_cases d <;> decide

theorem readDigitsAux_pad (n : Nat) :
    ∀ (m acc v : Nat) (rest : List Char), v < 10 ^ n →
      readDigitsAux (n + m) acc (padDigits n v ++ rest) =
        readDigitsAux m (acc * 10 ^ n + v) rest := by
  induction n with
  | zero =>
    intro m acc v rest hv
    have hv0 : v = 0 := Nat.lt_one_iff.mp hv
    simp [padDigits, hv0]
  | succ n ih =>
    intro m acc v rest hv
    have hdiv : v / 10 < 10 ^ n := by
      have : v < 10 ^ n * 10 := by
        simpa [Nat.pow_succ] using hv
      omega
    have hmod : v % 10 ≤ 9 := by omega
    have hstep : Nat.succ n + m = n + (1 + m) := by omega
    calc readDigitsAux (n + 1 + m) acc (padDigits (n + 1) v ++ rest)
        = readDigitsAux (n + (1 + m)) acc
            (padDigits n (v / 10) ++ (digitChar (v % 10) :: rest)) := by
          simp [padDigits, hstep]
      _ = readDigitsAux (1 + m) (acc * 10 ^ n + v / 10) (digitChar (v % 10) :: rest) :=
          ih (1 + m) acc (v / 10) _ hdiv
      _ = readDigitsAux m ((acc * 10 ^ n + v / 10) * 10 + (v % 10)) rest := by
          have h1 : (1 : Nat) + m = m + 1 := by omega
          simp [h1, readDigitsAux, digitChar_isDigit hmod, digitChar_toNat hmod]
      _ = readDigitsAux m (acc * 10 ^ (n + 1) + v) rest := by
          congr 1
          have := Nat.div_add_mod v 10
          ring_nf
          omega

theorem readDigits_pad {n v : Nat} (rest : List Char) (hv : v < 10 ^ n) :
    readDigits n (padDigits n v ++ rest) = some (v, rest) := by
  have h := readDigitsAux_pad n 0 0 v rest hv
  simpa [readDigits, readDigitsAux] using h

/-- `datetime.isoformat()` on a naive datetime:
`YYYY-MM-DDTHH:MM:SS`, with `.ffffff` appended only when the microsecond
field is nonzero. -/
def isoformatChars (t : PyDateTime) : List Char :=
  padDigits 4 t.year ++ '-' :: padDigits 2 t.month ++ '-' :: padDigits 2 t.day ++
  'T' :: padDigits 2 t.hour ++ ':' :: padDigits 2 t.minute ++ ':' :: padDigits 2 t.second ++
  (if t.microsecond = 0 then [] else '.' :: padDigits 6 t.microsecond)

/-- `datetime.fromisoformat` restricted to naive inputs: inverts exactly the
strings `isoformat` produces (fixed-width digit fields with `-`, `T`, `:`
separators and an optional 6-digit fraction); `none` models the `ValueError`
Python raises on a malformed string. -/
def fromisoformatChars (l : List Char) : Option PyDateTime :=
  match readDigits 4 l with
  | none => none
  | some (y, l) =>
  match expectChar '-' l with
  | none => none
  | some l =>
  match readDigits 2 l with
  | none => none
  | some (mo, l) =>
  match expectChar '-' l with
  | none => none
  | some l =>
  match readDigits 2 l with
  | none => none
  | some (d, l) =>
  match expectChar 'T' l with
  | none => none
  | some l =>
  match readDigits 2 l with
  | none => none
  | some (h, l) =>
  match expectChar ':' l with
  | none => none
  | some l =>
  match readDigits 2 l with
  | none => none
  | some (mi, l) =>
  match expectChar ':' l with
  | none => none
  | some l =>
  match readDigits 2 l with
  | none => none
  | some (s, l) =>
  match l with
  | [] => some ⟨y, mo, d, h, mi, s, 0⟩
  | '.' :: l =>
      match readDigits 6 l with
      | some (us, []) => some ⟨y, mo, d, h, mi, s, us⟩
      | _ => none
  | _ => none

theorem expectChar_cons (c : Char) (l : List Char) : expectChar c (c :: l) = some l := by
  simp [expectChar]

theorem fromisoformat_isoformat {t : PyDateTime} (ht : t.Valid) :
    fromisoformatChars (isoformatChars t) = some t := by
  obtain ⟨h1, h2, h3, h4, h5, h6, h7, h8, h9, h10⟩ := ht
  have hy : t.year < 10 ^ 4 := by omega
  have hmo : t.month < 10 ^ 2 := by omega
  have hd : t.day < 10 ^ 2 := by omega
  have hh : t.hour < 10 ^ 2 := by omega
  have hmi : t.minute < 10 ^ 2 := by omega
  have hs : t.second < 10 ^ 2 := by omega
  have hus : t.microsecond < 10 ^ 6 := by omega
  have ey := fun rest => readDigits_pad rest hy
  have emo := fun rest => readDigits_pad rest hmo
  have ed := fun rest => readDigits_pad rest hd
  have eh := fun rest => readDigits_pad rest hh
  have emi := fun rest => readDigits_pad rest hmi
  have es := fun rest => readDigits_pad rest hs
  have es0 : readDigits 2 (padDigits 2 t.second) = some (t.second, []) := by
    simpa using es []
  have eus0 : readDigits 6 (padDigits 6 t.microsecond) = some (t.microsecond, []) := by
    simpa using readDigits_pad [] hus
  by_cases h0 : t.microsecond = 0
  · simp only [isoformatChars, fromisoformatChars, if_pos h0, List.append_nil,
      List.append_assoc, List.cons_append]
    simp only [ey, emo, ed, eh, emi, es0, expectChar_cons]
    rw [← h0]
  · simp only [isoformatChars, fromisoformatChars, if_neg h0,
      List.append_assoc, List.cons_append]
    simp only [ey, emo, ed, eh, emi, es, eus0, expectChar_cons]

/-!  ## `TradeSignal` (`components/trading_execution_engine/trade_signal.py`)  -/

/-- The `TradeSignal` dataclass fields.  Optional floats are `Option ℚ`
(`None` ↦ `none`). -/
structure TradeSignal where
  ticker : String
  signal_type : String
  quantity : ℚ
  strategy_id : String
  timestamp : PyDateTime
  price : Option ℚ
  order_type : String
  limit_price : Option ℚ
  stop_price : Option ℚ
  time_in_force : String
deriving DecidableEq, Repr

/-- `TradeSignal(...)` including `__post_init__`: each `raise ValueError`
becomes an `Except.error` with the source's message, in source order;
a passing validation yields the constructed instance. -/
def mkTradeSignal (ticker signal_type : String) (quantity : ℚ) (strategy_id : String)
    (timestamp : PyDateTime) (price : Option ℚ) (order_type : String)
    (limit_price stop_price : Option ℚ) (time_in_force : String) :
    Except String TradeSignal :=
  if ¬(signal_type = "BUY" ∨ signal_type = "SELL") then
    Except.error "signal_type must be 'BUY' or 'SELL'."
  else if ¬(order_type = "market" ∨ order_type = "limit" ∨ order_type = "stop") then
    Except.error "order_type must be 'market', 'limit', or 'stop'."
  else if ¬(time_in_force = "day" ∨ time_in_force = "gtc" ∨ time_in_force = "opg" ∨
      time_in_force = "cls" ∨ time_in_force = "ioc" ∨ time_in_force = "fok") then
    Except.error "Invalid time_in_force value."
  else if order_type = "limit" ∧ limit_price = none then
    Except.error "limit_price is required for limit orders."
  else if order_type = "stop" ∧ stop_price = none then
    Except.error "stop_price is required for stop orders."
  else
    Except.ok ⟨ticker, signal_type, quantity, strategy_id, timestamp, price,
      order_type, limit_price, stop_price, time_in_force⟩

/-- `True` on `Except.error`, `False` on `Except.ok`: whether a modelled
Python call raised. -/
def raised {ε α : Type} : Except ε α → Bool
  | Except.error _ => true
  | Except.ok _ => false

/-- The dictionary produced by `TradeSignal.to_dict` (all ten keys always
present; `timestamp` is the `isoformat` string). -/
structure SignalDict where
  ticker : String
  signal_type : String
  quantity : ℚ
  strategy_id : String
  timestamp : List Char
  price : Option ℚ
  order_type : String
  limit_price : Option ℚ
  stop_price : Option ℚ
  time_in_force : String
deriving DecidableEq, Repr

/-- `TradeSignal.to_dict`. -/
def to_dict (ts : TradeSignal) : SignalDict :=
  ⟨ts.ticker, ts.signal_type, ts.quantity, ts.strategy_id,
    isoformatChars ts.timestamp, ts.price, ts.order_type,
    ts.limit_price, ts.stop_price, ts.time_in_force⟩

/-- `TradeSignal.from_dict`: every required key is present in a `SignalDict`,
so the `KeyError` path is absent; `datetime.fromisoformat` failure raises
`ValueError`; `float(...)` on the rational fields is the identity; the
`TradeSignal(...)` call re-runs `__post_init__` validation. -/
def from_dict (d : SignalDict) : Except String TradeSignal :=
  match fromisoformatChars d.timestamp with
  | none => Except.error "Invalid isoformat string"
  | some t =>
      mkTradeSignal d.ticker d.signal_type d.quantity d.strategy_id t d.price
        d.order_type d.limit_price d.stop_price d.time_in_force

/-!  ## `OrderManager` (`components/trading_execution_engine/order_manager.py`)  -/

/-- Python's banker's rounding to the nearest integer (ties to even), on exact
rationals. -/
def roundHalfEven (q : ℚ) : ℤ :=
  if Int.fract q < 1 / 2 then ⌊q⌋
  else if 1 / 2 < Int.fract q then ⌊q⌋ + 1
  else if ⌊q⌋ % 2 = 0 then ⌊q⌋ else ⌊q⌋ + 1

/-- Python `round(x, 4)` modelled on exact rationals. -/
def round4 (q : ℚ) : ℚ := (roundHalfEven (q * 10000) : ℚ) / 10000

/-- An Alpaca order dict, as returned by `place_order_async` /
`get_order_status_async` and consumed by `OrderManager`.  `Option` fields are
absent-or-`None` dict entries. -/
structure OrderInfo where
  id : String
  symbol : String
  qty : ℚ
  side : String
  status : String
  submitted_at : Option (List Char)
  filled_at : Option (List Char)
  filled_qty : Option ℚ
  client_order_id : Option String
  filled_avg_price : Option ℚ
  order_type_key : Option String
  limit_price : Option ℚ
  stop_price : Option ℚ
  is_manual : Nat
deriving DecidableEq, Repr

/-- A row of the `orders` table (the wall-clock-free columns). -/
structure OrderRow where
  order_id : String
  ticker : String
  quantity : ℚ
  side : String
  status : String
  submitted_at : Option (List Char)
  filled_at : Option (List Char)
  filled_qty : ℚ
  strategy_id : String
  execution_price : ℚ
  is_manual : Nat
deriving DecidableEq, Repr

/-- A row of the `execution_metrics` table (wall-clock latency column
omitted). -/
structure MetricsRow where
  order_id : String
  submission_time : Option (List Char)
  execution_time : Option (List Char)
  execution_price : Option ℚ
  price_slippage : Option ℚ
  order_type : String
  strategy_id : String
  success : Nat
deriving DecidableEq, Repr

/-- A row of the `failed_trades` table (wall-clock columns omitted;
`trade_signal` holds the serialized signal dict, `none` for a NULL column). -/
structure FailedRow where
  id : Nat
  trade_signal : Option SignalDict
  error_message : String
  retry_count : Nat
  status : String
deriving DecidableEq, Repr

/-- `OrderManager._calculate_slippage`.  `order_info.get('limit_price', 0) or
order_info.get('stop_price', 0)` picks the limit price when it is truthy
(present and nonzero) and falls back to the stop price; a zero intended price
means a market order and reports zero slippage.  The redundant
`intended_price != 0` conjuncts of the source are kept. -/
def calculate_slippage (o : OrderInfo) : ℚ :=
  let intended_price : ℚ :=
    if o.limit_price.getD 0 ≠ 0 then o.limit_price.getD 0 else o.stop_price.getD 0
  if intended_price = 0 then 0
  else
    let executed_price : ℚ := o.filled_avg_price.getD 0
    if o.side = "buy" ∧ intended_price ≠ 0 then
      round4 ((executed_price - intended_price) / intended_price * 100)
    else if o.side = "sell" ∧ intended_price ≠ 0 then
      round4 ((intended_price - executed_price) / intended_price * 100)
    else 0

/-- `INSERT OR REPLACE` keyed on `order_id`: replace the matching row in
place, else append. -/
def upsertOrder (rows : List OrderRow) (r : OrderRow) : List OrderRow :=
  if rows.any (fun x => x.order_id = r.order_id) then
    rows.map (fun x => if x.order_id = r.order_id then r else x)
  else rows ++ [r]

/-- `INSERT OR REPLACE` on `execution_metrics`, keyed on `order_id`. -/
def upsertMetrics (rows : List MetricsRow) (r : MetricsRow) : List MetricsRow :=
  if rows.any (fun x => x.order_id = r.order_id) then
    rows.map (fun x => if x.order_id = r.order_id then r else x)
  else rows ++ [r]

/-!  ## `ExecutionEngine` (`components/trading_execution_engine/execution_engine.py`)  -/

/-- The account dict from `get_account_info_async` (the fields the engine
reads). -/
structure AccountInfo where
  portfolio_value : ℚ
  equity : ℚ
  last_equity : ℚ
deriving DecidableEq, Repr

/-- `CONFIG['risk']`. -/
structure RiskConfig where
  max_position_size_pct : ℚ
  max_order_value : ℚ
  daily_loss_limit_pct : ℚ
deriving DecidableEq, Repr

/-- A position dict from `get_positions_async` (the fields bulk liquidation
reads). -/
structure Position where
  symbol : String
  qty : ℚ
deriving DecidableEq, Repr

/-- The `order_params` dict `place_order` sends to
`place_order_async`; `limit_price`/`stop_price` are present only for the
matching order type. -/
structure OrderParams where
  symbol : String
  qty : ℚ
  side : String
  order_type_key : String
  time_in_force : String
  client_order_id : String
  limit_price : Option ℚ
  stop_price : Option ℚ
deriving DecidableEq, Repr

/-- The broker (Alpaca client) as an oracle: each operation's outcome,
indexed by call number where the engine can call it repeatedly.
`Except.error` models the call raising. -/
structure Broker where
  accountInfo : Except String AccountInfo
  placeOrder : Nat → OrderParams → Except String OrderInfo
  getOrderStatus : Nat → String → Except String OrderInfo
  getPositions : Except String (List Position)
  cancelAll : Except String Unit
deriving Inhabited

/-- The persistent database plus the `ExecutionEngine`'s in-memory state and
traces of outbound broker calls.  `placeCalls` records every
`place_order_async` request (its length is the call counter); `cancelCalls`
records every `cancel_order_async` request; `statusCalls` counts
`get_order_status_async` polls. -/
structure EngState where
  orders : List OrderRow
  metrics : List MetricsRow
  failed_trades : List FailedRow
  nextFailedId : Nat
  active_orders : List (String × String)
  daily_pnl : ℚ
  placeCalls : List OrderParams
  cancelCalls : List String
  statusCalls : Nat
deriving DecidableEq, Repr

/-- The engine state at process start: empty tables, empty `_active_orders`,
`daily_pnl = 0`, no broker calls yet. -/
def initState : EngState := ⟨[], [], [], 1, [], 0, [], [], 0⟩

/-- `OrderManager.add_order`: one `INSERT OR REPLACE` into `orders` and one
into `execution_metrics`, with the source's `.get` defaults. -/
def add_order (st : EngState) (o : OrderInfo) : EngState :=
  { st with
    orders := upsertOrder st.orders
      ⟨o.id, o.symbol, o.qty, o.side, o.status, o.submitted_at, o.filled_at,
        o.filled_qty.getD 0, o.client_order_id.getD "", o.filled_avg_price.getD 0,
        o.is_manual⟩,
    metrics := upsertMetrics st.metrics
      ⟨o.id, o.submitted_at, none, none, none, o.order_type_key.getD "market",
        o.client_order_id.getD "", 1⟩ }

/-- `OrderManager.update_order`: update the matching `orders` row, then — when
the status is `filled` — record execution metrics including the slippage, or
— when `canceled`/`rejected` — mark the metrics row unsuccessful. -/
def update_order (st : EngState) (o : OrderInfo) : EngState :=
  let st := { st with
    orders := st.orders.map (fun r =>
      if r.order_id = o.id then
        { r with
          status := o.status
          filled_at := o.filled_at
          filled_qty := o.filled_qty.getD 0
          execution_price := o.filled_avg_price.getD 0 }
      else r) }
  if o.status = "filled" then
    { st with metrics := st.metrics.map (fun m =>
        if m.order_id = o.id then
          { m with
            execution_time := o.filled_at
            execution_price := some (o.filled_avg_price.getD 0)
            price_slippage := some (calculate_slippage o)
            success := 1 }
        else m) }
  else if o.status = "canceled" ∨ o.status = "rejected" then
    { st with metrics := st.metrics.map (fun m =>
        if m.order_id = o.id then { m with success := 0 } else m) }
  else st

/-- `OrderManager.log_failed_trade`: insert one `failed_trades` row with the
serialized signal, the error message, `retry_count` defaulted to `0` and
`status` `'pending'`. -/
def log_failed_trade (st : EngState) (ts : TradeSignal) (err : String) : EngState :=
  { st with
    failed_trades := st.failed_trades ++ [⟨st.nextFailedId, some (to_dict ts), err, 0, "pending"⟩],
    nextFailedId := st.nextFailedId + 1 }

/-- `OrderManager.update_failed_trade_status`: for `'retry'` the row's
`retry_count` is incremented and the error message replaced when one is given
— the `status` column is not touched; for any other status the `status`
column is set (and `resolved_at`, outside the model). -/
def update_failed_trade_status (st : EngState) (trade_id : Nat) (status : String)
    (error_message : Option String) : EngState :=
  if status = "retry" then
    { st with failed_trades := st.failed_trades.map (fun r =>
        if r.id = trade_id then
          { r with
            retry_count := r.retry_count + 1
            error_message := error_message.getD r.error_message }
        else r) }
  else
    { st with failed_trades := st.failed_trades.map (fun r =>
        if r.id = trade_id then { r with status := status } else r) }

/-- `OrderManager.get_pending_failed_trades`: the rows with status
`'pending'` and `retry_count` below the bound (selection only; the model's
row order stands in for `ORDER BY timestamp`). -/
def get_pending_failed_trades (st : EngState) (max_retry_count : Nat) : List FailedRow :=
  st.failed_trades.filter (fun r => r.status = "pending" ∧ r.retry_count < max_retry_count)

/-- Insert or overwrite a key in a Python-dict-like association list
(`self._active_orders[k] = v`). -/
def dictInsert (l : List (String × String)) (k v : String) : List (String × String) :=
  if l.any (fun p => p.1 = k) then
    l.map (fun p => if p.1 = k then (k, v) else p)
  else l ++ [(k, v)]

/-- Microseconds since midnight of a datetime's time-of-day; Python's
`datetime.time` comparison coincides with comparing this value. -/
def timeOfDayUs (t : PyDateTime) : Nat :=
  ((t.hour * 60 + t.minute) * 60 + t.second) * 1000000 + t.microsecond

/-- `ExecutionEngine.is_market_open`: the current New York wall-clock time
(passed in as `now`) lies in `[time(9,30), time(16,0)]`. -/
def is_market_open (now : PyDateTime) : Bool :=
  timeOfDayUs ⟨0, 1, 1, 9, 30, 0, 0⟩ ≤ timeOfDayUs now ∧
    timeOfDayUs now ≤ timeOfDayUs ⟨0, 1, 1, 16, 0, 0, 0⟩

/-- The price `validate_trade_signal` multiplies the quantity by: the limit
price for limit orders, the stop price for stop orders, else the reference
price. -/
def validation_price (ts : TradeSignal) : Option ℚ :=
  if ts.order_type = "limit" then ts.limit_price
  else if ts.order_type = "stop" then ts.stop_price
  else ts.price

/-- `ExecutionEngine.validate_trade_signal`.  Any exception inside (failed
account lookup, `quantity * None`) is caught and yields `False`.  The method
mutates the signal (`price` defaulted to `0` for market orders), so the
updated signal is returned alongside the verdict. -/
def validate_trade_signal (b : Broker) (cfg : RiskConfig) (st : EngState)
    (ts : TradeSignal) : Bool × TradeSignal :=
  match b.accountInfo with
  | Except.error _ => (false, ts)
  | Except.ok acct =>
    let ts := if ts.price = none ∧ ts.order_type = "market" then
        { ts with price := some 0 } else ts
    match validation_price ts with
    | none => (false, ts)
    | some vp =>
      let order_value := ts.quantity * vp
      let max_position_value := acct.portfolio_value * cfg.max_position_size_pct
      if order_value > max_position_value then (false, ts)
      else if order_value > cfg.max_order_value then (false, ts)
      else if st.daily_pnl ≤ -(acct.portfolio_value * cfg.daily_loss_limit_pct) then
        (false, ts)
      else (true, ts)

/-- `ExecutionEngine.handle_failed_trade`: with an existing trade id, mark
that `failed_trades` row for retry; otherwise insert a fresh row (when a
signal object exists to serialize — with `None` the `to_dict` call raises and
the outer handler swallows it).  Then cancel-and-drop any active order under
the signal's strategy id. -/
def handle_failed_trade (st : EngState) (ts : Option TradeSignal)
    (error_message : String) (existing_trade_id : Option Nat) : EngState :=
  let st := match existing_trade_id with
    | some tid => update_failed_trade_status st tid "retry" (some error_message)
    | none =>
      match ts with
      | some s => log_failed_trade st s error_message
      | none => st
  match ts with
  | none => st
  | some s =>
    match st.active_orders.find? (fun p => p.1 = s.strategy_id) with
    | none => st
    | some p =>
      { st with
        active_orders := st.active_orders.filter (fun q => ¬(q.1 = s.strategy_id))
        cancelCalls := st.cancelCalls ++ [p.2] }

/-- `ExecutionEngine.update_daily_pnl`: recompute `daily_pnl` from the
account's equity; an account-lookup failure is caught and leaves it
unchanged. -/
def update_daily_pnl (b : Broker) (st : EngState) : EngState :=
  match b.accountInfo with
  | Except.ok a => { st with daily_pnl := a.equity - a.last_equity }
  | Except.error _ => st

/-- The polling loop of `ExecutionEngine.check_order_status`, with the
remaining number of allowed polls as fuel (the source polls up to 10
times). -/
def checkStatusGo (b : Broker) (oid : String) : Nat → EngState → EngState × Except String Unit
  | 0, st => (st, Except.ok ())
  | fuel + 1, st =>
    let n := st.statusCalls
    let st := { st with statusCalls := st.statusCalls + 1 }
    match b.getOrderStatus n oid with
    | Except.error e => (st, Except.error e)
    | Except.ok order =>
      let st := update_order st order
      if order.status = "filled" then (update_daily_pnl b st, Except.ok ())
      else if order.status = "canceled" ∨ order.status = "rejected" then
        (st, Except.ok ())
      else checkStatusGo b oid fuel st

/-- `ExecutionEngine.check_order_status`: poll the order status up to 10
times, updating the stored order each time; a `filled` status refreshes the
daily P&L; a broker failure re-raises. -/
def check_order_status (b : Broker) (st : EngState) (oid : String) :
    EngState × Except String Unit :=
  checkStatusGo b oid 10 st

/-- ASCII lowercasing of one character (`str.lower` acts per character; the
signal sides here are ASCII). -/
def lowerChar (c : Char) : Char :=
  if 65 ≤ c.toNat ∧ c.toNat ≤ 90 then Char.ofNat (c.toNat + 32) else c

/-- Python `str.lower` on ASCII strings, written with structural recursion so
the kernel can evaluate it. -/
def pyLower (s : String) : String := String.mk (s.data.map lowerChar)

/-- The `order_params` dict `ExecutionEngine.place_order` builds from a
signal. -/
def order_params_of (ts : TradeSignal) : OrderParams :=
  { symbol := ts.ticker
    qty := ts.quantity
    side := pyLower ts.signal_type
    order_type_key := ts.order_type
    time_in_force := ts.time_in_force
    client_order_id := ts.strategy_id
    limit_price := if ts.order_type = "limit" then ts.limit_price else none
    stop_price := if ts.order_type = "stop" then ts.stop_price else none }

/-- `ExecutionEngine.place_order`: send the order to the broker; on success
tag it (`is_manual`, `side`), store it via `add_order`, index it in
`_active_orders`, and monitor it; any exception (from the broker call or the
monitoring) re-raises. -/
def place_order (b : Broker) (st : EngState) (ts : TradeSignal) :
    EngState × Except String Unit :=
  let p := order_params_of ts
  let n := st.placeCalls.length
  let st := { st with placeCalls := st.placeCalls ++ [p] }
  match b.placeOrder n p with
  | Except.error e => (st, Except.error e)
  | Except.ok order =>
    let order := { order with
      is_manual := if ts.strategy_id = "manual_trade" then 1 else 0
      side := p.side }
    let st := add_order st order
    let st := { st with active_orders := dictInsert st.active_orders ts.strategy_id order.id }
    check_order_status b st order.id

/-- The retry loop of `ExecutionEngine.execute_trade_with_recovery`, with the
remaining number of attempts as fuel (`max_retries = 3` in the source; the
final failed attempt logs a failed trade unless recovering, then
re-raises). -/
def etwrGo (b : Broker) (ts : TradeSignal) (is_recovery : Bool) :
    Nat → EngState → EngState × Except String Bool
  | 0, st => (st, Except.ok false)
  | rem + 1, st =>
    match place_order b st ts with
    | (st, Except.ok _) => (st, Except.ok true)
    | (st, Except.error e) =>
      if rem = 0 then
        let st := if is_recovery then st else handle_failed_trade st (some ts) e none
        (st, Except.error e)
      else etwrGo b ts is_recovery rem st

/-- `ExecutionEngine.execute_trade_with_recovery`: up to `max_retries = 3`
placement attempts. -/
def execute_trade_with_recovery (b : Broker) (st : EngState) (ts : TradeSignal)
    (is_recovery : Bool) : EngState × Except String Bool :=
  etwrGo b ts is_recovery 3 st

/-- `ExecutionEngine.execute_trade_signal`, the full submit pipeline: reject
when the market is closed, reject when validation fails (both reject paths go
through `handle_failed_trade`), otherwise place with retries; an exception
out of the placement is caught and routed to `handle_failed_trade` as
well. -/
def execute_trade_signal (b : Broker) (cfg : RiskConfig) (now : PyDateTime)
    (st : EngState) (ts : TradeSignal) : EngState :=
  if ¬is_market_open now then handle_failed_trade st (some ts) "Market closed" none
  else
    match validate_trade_signal b cfg st ts with
    | (false, ts1) => handle_failed_trade st (some ts1) "Trade signal validation failed" none
    | (true, ts1) =>
      match execute_trade_with_recovery b st ts1 false with
      | (st1, Except.ok _) => st1
      | (st1, Except.error e) => handle_failed_trade st1 (some ts1) e none

/-- `ExecutionEngine._recover_single_failed_trade` on one `failed_trades`
row: deserialize the stored signal, re-validate it, re-place it with
`is_recovery=True`; success resolves the row; an exception marks the row
`failed` once `retry_count + 1` reaches `max_retries = 3` and otherwise
routes to `handle_failed_trade` with the existing row id; a validation
verdict of `False` routes to `handle_failed_trade` with the existing row
id. -/
def recover_single_failed_trade (b : Broker) (cfg : RiskConfig) (st : EngState)
    (trade_id : Nat) (sig : SignalDict) (retry_count : Nat) : EngState :=
  match from_dict sig with
  | Except.error e =>
      if retry_count + 1 ≥ 3 then update_failed_trade_status st trade_id "failed" none
      else handle_failed_trade st none e (some trade_id)
  | Except.ok ts0 =>
      match validate_trade_signal b cfg st ts0 with
      | (true, ts) =>
        match execute_trade_with_recovery b st ts true with
        | (st1, Except.ok _) => update_failed_trade_status st1 trade_id "resolved" none
        | (st1, Except.error e) =>
            if retry_count + 1 ≥ 3 then update_failed_trade_status st1 trade_id "failed" none
            else handle_failed_trade st1 (some ts) e (some trade_id)
      | (false, ts) =>
          handle_failed_trade st (some ts) "Trade signal validation failed during recovery"
            (some trade_id)

/-- The sell signal `liquidate_all_positions` builds for a position
(defaults: market order, `gtc`, no prices). -/
def liquidation_signal (p : Position) (now : PyDateTime) : TradeSignal :=
  ⟨p.symbol, "SELL", p.qty, "liquidation", now, none, "market", none, none, "gtc"⟩

/-- The sell signal the bulk-liquidation failure handler builds for a
position. -/
def liquidation_recovery_signal (p : Position) (now : PyDateTime) : TradeSignal :=
  ⟨p.symbol, "SELL", p.qty, "liquidation_recovery", now, none, "market", none, none, "gtc"⟩

/-- The gathered liquidation tasks, run to completion in list order; the
first exception is remembered (a faithful account of row effects:
`asyncio.gather` without `return_exceptions` lets every task run and
propagates a first exception). -/
def liquidateGo (b : Broker) (now : PyDateTime) :
    List Position → EngState → Option String → EngState × Option String
  | [], st, firstErr => (st, firstErr)
  | p :: rest, st, firstErr =>
    match execute_trade_with_recovery b st (liquidation_signal p now) false with
    | (st1, Except.ok _) => liquidateGo b now rest st1 firstErr
    | (st1, Except.error e) =>
        liquidateGo b now rest st1 (match firstErr with | some e0 => some e0 | none => some e)

/-- `ExecutionEngine.liquidate_all_positions`: one sell task per position;
when any task raised, the handler logs a fresh failed trade for **every**
position (strategy id `liquidation_recovery`) and re-raises. -/
def liquidate_all_positions (b : Broker) (now : PyDateTime) (st : EngState) :
    EngState × Except String Unit :=
  match b.getPositions with
  | Except.error e => (st, Except.error e)
  | Except.ok positions =>
    match liquidateGo b now positions st none with
    | (st1, none) => (st1, Except.ok ())
    | (st1, some e) =>
      let st2 := positions.foldl (fun acc p =>
        handle_failed_trade acc (some (liquidation_recovery_signal p now))
          ("Failed during bulk liquidation: " ++ e) none) st1
      (st2, Except.error e)

/-- `ExecutionEngine.cancel_all_orders`: clear `_active_orders` first, then
issue the broker-side cancel-all; a broker failure re-raises with the map
already cleared. -/
def cancel_all_orders (b : Broker) (st : EngState) : EngState × Except String Unit :=
  let st := { st with active_orders := [] }
  match b.cancelAll with
  | Except.ok _ => (st, Except.ok ())
  | Except.error e => (st, Except.error e)

/-!  ## Concrete fixtures used by witnesses and counterexamples  -/

deriving instance DecidableEq for Except

/-- The mocked risk configuration of the engine's test suite:
`max_position_size_pct = 0.1`, `max_order_value = 50000`,
`daily_loss_limit_pct = 0.02`. -/
def cfg0 : RiskConfig := ⟨1 / 10, 50000, 2 / 100⟩

/-- A healthy account: portfolio value 100000, flat equity. -/
def acct0 : AccountInfo := ⟨100000, 100000, 100000⟩

/-- A timestamp inside the market session (12:00). -/
def t0 : PyDateTime := ⟨2024, 5, 1, 12, 0, 0, 0⟩

/-- A timestamp outside the market session (08:00). -/
def t8 : PyDateTime := ⟨2024, 5, 1, 8, 0, 0, 0⟩

/-- A freshly accepted broker order (status `new`). -/
def okOrder (oid sym : String) (q : ℚ) (client : String) : OrderInfo :=
  ⟨oid, sym, q, "buy", "new", none, none, none, some client, none, some "market", none, none, 0⟩

/-- The same broker order once filled at 150. -/
def filledOrder (oid sym : String) (q : ℚ) (client : String) : OrderInfo :=
  ⟨oid, sym, q, "buy", "filled", none, none, some q, some client, some 150, some "market",
    none, none, 0⟩

/-- A broker whose place-order operation raises on every call. -/
def failBroker : Broker :=
  ⟨Except.ok acct0, fun _ _ => Except.error "boom",
    fun _ oid => Except.ok (filledOrder oid "AAPL" 10 "test_strategy"),
    Except.ok [], Except.ok ()⟩

/-- A broker that accepts orders and reports them filled on the first
poll. -/
def goodBroker : Broker :=
  ⟨Except.ok acct0, fun _ p => Except.ok (okOrder "oid1" p.symbol p.qty p.client_order_id),
    fun _ oid => Except.ok (filledOrder oid "AAPL" 10 "test_strategy"),
    Except.ok [], Except.ok ()⟩

/-- A small valid market-order signal that passes risk validation against
`cfg0`/`acct0`. -/
def sig0 : TradeSignal :=
  ⟨"AAPL", "BUY", 10, "test_strategy", t0, some 150, "market", none, none, "gtc"⟩

/-!  ## Claim theorems  -/

set_option maxHeartbeats 1000000 in
/-- C7: `TradeSignal` construction fails (raises `ValueError`) exactly when
the side, order kind, or time-in-force is outside its enumerated set, or the
order kind is `limit` with no limit price, or `stop` with no stop price. -/
theorem C7_construction_validation
    (ticker signal_type : String) (quantity : ℚ) (strategy_id : String)
    (timestamp : PyDateTime) (price : Option ℚ) (order_type : String)
    (limit_price stop_price : Option ℚ) (time_in_force : String) :
    raised (mkTradeSignal ticker signal_type quantity strategy_id timestamp price
        order_type limit_price stop_price time_in_force) = true ↔
      (¬(signal_type = "BUY" ∨ signal_type = "SELL") ∨
       ¬(order_type = "market" ∨ order_type = "limit" ∨ order_type = "stop") ∨
       ¬(time_in_force = "day" ∨ time_in_force = "gtc" ∨ time_in_force = "opg" ∨
         time_in_force = "cls" ∨ time_in_force = "ioc" ∨ time_in_force = "fok") ∨
       (order_type = "limit" ∧ limit_price = none) ∨
       (order_type = "stop" ∧ stop_price = none)) := by
  unfold mkTradeSignal
  split_ifs with h1 h2 h3 h4 h5 <;> simp only [raised] <;>
    simp only [eq_self_iff_true, true_iff, false_iff, not_or, not_and] <;> tauto

/-- C9 counterexample: a `TradeSignal` with quantity `-5 ≤ 0` constructs
successfully — `__post_init__` never examines the quantity, so the claimed
`quantity > 0` invariant is not enforced at construction. -/
theorem C9_counterexample :
    (-5 : ℚ) ≤ 0 ∧
      raised (mkTradeSignal "AAPL" "BUY" (-5) "s" t0 (some 150) "market"
        none none "gtc") = false := by
  constructor
  · norm_num
  · rfl

/-- C9 amended: construction enforces the enumeration and companion-price
invariants on every successfully constructed instance, but the quantity field
is never validated — the construction verdict is independent of the quantity
argument, so instances with `quantity ≤ 0` are constructible. -/
theorem C9_amended_invariants :
    (∀ (ticker signal_type : String) (quantity : ℚ) (strategy_id : String)
        (timestamp : PyDateTime) (price : Option ℚ) (order_type : String)
        (limit_price stop_price : Option ℚ) (time_in_force : String)
        (ts : TradeSignal),
      mkTradeSignal ticker signal_type quantity strategy_id timestamp price
          order_type limit_price stop_price time_in_force = Except.ok ts →
        (ts.signal_type = "BUY" ∨ ts.signal_type = "SELL") ∧
        (ts.order_type = "market" ∨ ts.order_type = "limit" ∨ ts.order_type = "stop") ∧
        (ts.time_in_force = "day" ∨ ts.time_in_force = "gtc" ∨ ts.time_in_force = "opg" ∨
          ts.time_in_force = "cls" ∨ ts.time_in_force = "ioc" ∨ ts.time_in_force = "fok") ∧
        (ts.order_type = "limit" → ts.limit_price ≠ none) ∧
        (ts.order_type = "stop" → ts.stop_price ≠ none)) ∧
    (∀ (ticker signal_type : String) (q1 q2 : ℚ) (strategy_id : String)
        (timestamp : PyDateTime) (price : Option ℚ) (order_type : String)
        (limit_price stop_price : Option ℚ) (time_in_force : String),
      raised (mkTradeSignal ticker signal_type q1 strategy_id timestamp price
          order_type limit_price stop_price time_in_force) =
        raised (mkTradeSignal ticker signal_type q2 strategy_id timestamp price
          order_type limit_price stop_price time_in_force)) := by
  constructor
  · intro ticker signal_type quantity strategy_id timestamp price order_type
      limit_price stop_price time_in_force ts h
    unfold mkTradeSignal at h
    split_ifs at h with h1 h2 h3 h4 h5
    cases h
    refine ⟨by tauto, by tauto, by tauto, ?_, ?_⟩
    · intro hl
      simp only [not_and, not_or] at h4
      exact h4 hl
    · intro hs
      simp only [not_and, not_or] at h5
      exact h5 hs
  · intro ticker signal_type q1 q2 strategy_id timestamp price order_type
      limit_price stop_price time_in_force
    unfold mkTradeSignal
    split_ifs <;> rfl

/-- C9 amended, witnessed at a concrete construction. -/
theorem C9_amended_witness :
    (sig0.signal_type = "BUY" ∨ sig0.signal_type = "SELL") ∧
    (sig0.order_type = "market" ∨ sig0.order_type = "limit" ∨ sig0.order_type = "stop") ∧
    (sig0.time_in_force = "day" ∨ sig0.time_in_force = "gtc" ∨ sig0.time_in_force = "opg" ∨
      sig0.time_in_force = "cls" ∨ sig0.time_in_force = "ioc" ∨ sig0.time_in_force = "fok") ∧
    (sig0.order_type = "limit" → sig0.limit_price ≠ none) ∧
    (sig0.order_type = "stop" → sig0.stop_price ≠ none) :=
  C9_amended_invariants.1 "AAPL" "BUY" 10 "test_strategy" t0 (some 150) "market"
    none none "gtc" sig0 rfl

set_option maxHeartbeats 1000000 in
/-- C6: serializing a validly constructed `TradeSignal` with `to_dict` and
deserializing with `from_dict` returns the original signal in every field,
timestamp precision included (its microsecond field survives exactly). -/
theorem C6_serialize_roundtrip
    (ticker signal_type : String) (quantity : ℚ) (strategy_id : String)
    (timestamp : PyDateTime) (price : Option ℚ) (order_type : String)
    (limit_price stop_price : Option ℚ) (time_in_force : String)
    (ts : TradeSignal)
    (hts : mkTradeSignal ticker signal_type quantity strategy_id timestamp price
        order_type limit_price stop_price time_in_force = Except.ok ts)
    (hdt : timestamp.Valid) :
    from_dict (to_dict ts) = Except.ok ts := by
  unfold mkTradeSignal at hts
  split_ifs at hts with h1 h2 h3 h4 h5
  injection hts with hts
  subst hts
  unfold from_dict to_dict
  dsimp only
  rw [fromisoformat_isoformat hdt]
  unfold mkTradeSignal
  dsimp only
  rw [if_neg (not_not_intro h1), if_neg (not_not_intro h2), if_neg (not_not_intro h3),
    if_neg h4, if_neg h5]

/-- A valid limit-order signal with microsecond timestamp precision, used to
witness the round-trip law. -/
def sigW : TradeSignal :=
  ⟨"MSFT", "SELL", 7 / 2, "strat", ⟨2023, 12, 31, 23, 59, 59, 123456⟩, none,
    "limit", some (401 / 2), none, "day"⟩

/-- C6, witnessed on a concrete valid signal. -/
theorem C6_roundtrip_witness : from_dict (to_dict sigW) = Except.ok sigW :=
  C6_serialize_roundtrip "MSFT" "SELL" (7 / 2) "strat"
    ⟨2023, 12, 31, 23, 59, 59, 123456⟩ none "limit" (some (401 / 2)) none "day"
    sigW rfl (by decide)

/-- C10: `cancel_all_orders` empties the `_active_orders` map before the
broker-side cancel-all request, so the map ends empty whatever the broker
call's outcome, and a broker failure is re-raised unchanged with the map
still cleared (the clear is not rolled back). -/
theorem C10_cancel_all_clears_map (b : Broker) (st : EngState) :
    (cancel_all_orders b st).1.active_orders = [] ∧
      (cancel_all_orders b st).2 = b.cancelAll := by
  unfold cancel_all_orders
  rcases h : b.cancelAll with e | u
  · exact ⟨rfl, rfl⟩
  · exact ⟨rfl, by simp⟩

/-- A database holding the metrics row of order `o1`, awaiting its fill. -/
def st8 : EngState :=
  { initState with
    orders := [⟨"o1", "X", 1, "buy", "new", none, none, 0, "s", 0, 0⟩],
    metrics := [⟨"o1", none, none, none, none, "limit", "s", 1⟩] }

/-- The fill report for order `o1`: a buy limit order intended at 3, executed
at 4. -/
def o8 : OrderInfo :=
  ⟨"o1", "X", 1, "buy", "filled", none, none, some 1, some "s", some 4,
    some "limit", some 3, none, 0⟩

/-- C8 counterexample: for the filled buy limit order `o8` (intended 3,
executed 4) the recorded slippage is `round((4-3)/3*100, 4) = 33.3333`, which
differs from the claimed exact value `(4-3)/3*100 = 33.33…` — the source
rounds to 4 decimal places before recording. -/
theorem C8_counterexample :
    ((update_order st8 o8).metrics.map (fun m => m.price_slippage)) =
        [some (333333 / 10000)] ∧
      (333333 / 10000 : ℚ) ≠ (4 - 3) / 3 * 100 := by
  have hcs : calculate_slippage o8 = 333333 / 10000 := by
    have h2 : ⌊(((4 : ℚ) - 3) / 3 * 100 * 10000)⌋ = 333333 := by norm_num
    have h3 : Int.fract (((4 : ℚ) - 3) / 3 * 100 * 10000) < 1 / 2 := by
      unfold Int.fract
      rw [h2]
      norm_num
    have h4 : round4 (((4 : ℚ) - 3) / 3 * 100) = 333333 / 10000 := by
      unfold round4 roundHalfEven
      rw [if_pos h3, h2]
      norm_num
    unfold calculate_slippage
    norm_num [o8]
    convert h4 using 2
    norm_num
  constructor
  · simp [update_order, st8, o8, initState]
    exact hcs
  · norm_num

set_option maxHeartbeats 1000000 in
/-- C8 amended: for every filled order, the recorded slippage is the claimed
formula **rounded half-even to 4 decimal places** (`round(x, 4)`): for a buy
with intended price `ip ≠ 0` (the limit price when truthy, else the stop
price) and executed price `ep` it is `round4 ((ep-ip)/ip·100)`; for a sell it
is the same with the sign flipped; with no intended price (market order) it
is exactly `0`; and `update_order` writes exactly this value into the
matching `execution_metrics` row. -/
theorem C8_amended_slippage (st : EngState) (o : OrderInfo) (ip ep : ℚ) :
    (o.status = "filled" →
      (update_order st o).metrics = st.metrics.map (fun m =>
        if m.order_id = o.id then
          { m with
            execution_time := o.filled_at
            execution_price := some (o.filled_avg_price.getD 0)
            price_slippage := some (calculate_slippage o)
            success := 1 }
        else m)) ∧
    (o.limit_price = some ip → ip ≠ 0 → o.filled_avg_price = some ep →
      (o.side = "buy" → calculate_slippage o = round4 ((ep - ip) / ip * 100)) ∧
      (o.side = "sell" → calculate_slippage o = round4 (-((ep - ip) / ip * 100)))) ∧
    (o.limit_price.getD 0 = 0 → o.stop_price = some ip → ip ≠ 0 →
        o.filled_avg_price = some ep →
      (o.side = "buy" → calculate_slippage o = round4 ((ep - ip) / ip * 100)) ∧
      (o.side = "sell" → calculate_slippage o = round4 (-((ep - ip) / ip * 100)))) ∧
    (o.limit_price.getD 0 = 0 → o.stop_price.getD 0 = 0 →
      calculate_slippage o = 0) := by
  refine ⟨?_, ?_, ?_, ?_⟩
  · intro hf
    unfold update_order
    rw [if_pos hf]
  · intro hl hip hep
    constructor
    · intro hside
      unfold calculate_slippage
      rw [hl, hep, hside]
      simp only [Option.getD_some]
      rw [if_pos hip, if_neg hip]
      simp [hip]
    · intro hside
      unfold calculate_slippage
      rw [hl, hep, hside]
      simp only [Option.getD_some]
      rw [if_pos hip, if_neg hip]
      rw [if_neg (fun hc => absurd hc.1 (by decide))]
      rw [if_pos (⟨by trivial, hip⟩ : _ ∧ ip ≠ 0)]
      congr 1
      ring
  · intro hl0 hs hip hep
    constructor
    · intro hside
      unfold calculate_slippage
      rw [hl0, hs, hep, hside]
      simp only [Option.getD_some]
      rw [if_neg (by simp : ¬((0 : ℚ) ≠ 0)), if_neg hip]
      simp [hip]
    · intro hside
      unfold calculate_slippage
      rw [hl0, hs, hep, hside]
      simp only [Option.getD_some]
      rw [if_neg (by simp : ¬((0 : ℚ) ≠ 0)), if_neg hip]
      rw [if_neg (fun hc => absurd hc.1 (by decide))]
      rw [if_pos (⟨by trivial, hip⟩ : _ ∧ ip ≠ 0)]
      congr 1
      ring
  · intro hl0 hs0
    unfold calculate_slippage
    rw [hl0, hs0]
    simp

/-- C8 amended, witnessed on `o8` and a concrete sell stop order. -/
theorem C8_amended_witness :
    calculate_slippage o8 = round4 ((4 - 3) / 3 * 100) ∧
      (update_order st8 o8).metrics = st8.metrics.map (fun m =>
        if m.order_id = o8.id then
          { m with
            execution_time := o8.filled_at
            execution_price := some (o8.filled_avg_price.getD 0)
            price_slippage := some (calculate_slippage o8)
            success := 1 }
        else m) :=
  ⟨((C8_amended_slippage st8 o8 3 4).2.1 rfl (by norm_num) rfl).1 rfl,
    (C8_amended_slippage st8 o8 3 4).1 rfl⟩


theorem handle_failed_trade_placeCalls (st : EngState) (ts : Option TradeSignal)
    (e : String) (tid : Option Nat) :
    (handle_failed_trade st ts e tid).placeCalls = st.placeCalls := by
  unfold handle_failed_trade log_failed_trade update_failed_trade_status
  rcases tid with _ | tid <;> rcases ts with _ | s <;> dsimp only <;>
    (try split) <;> (try split) <;> rfl

theorem handle_failed_trade_log (st : EngState) (s : TradeSignal) (e : String) :
    (handle_failed_trade st (some s) e none).failed_trades =
        st.failed_trades ++ [⟨st.nextFailedId, some (to_dict s), e, 0, "pending"⟩] ∧
      (handle_failed_trade st (some s) e none).nextFailedId = st.nextFailedId + 1 := by
  unfold handle_failed_trade log_failed_trade
  dsimp only
  split <;> exact ⟨rfl, rfl⟩

theorem update_failed_retry (st : EngState) (tid : Nat) (e : String) :
    (update_failed_trade_status st tid "retry" (some e)).failed_trades =
      st.failed_trades.map (fun r =>
        if r.id = tid then
          { r with retry_count := r.retry_count + 1, error_message := e }
        else r) := by
  unfold update_failed_trade_status
  rw [if_pos rfl]
  simp [Option.getD_some]

theorem handle_failed_trade_retry (st : EngState) (ts : Option TradeSignal)
    (e : String) (tid : Nat) :
    (handle_failed_trade st ts e (some tid)).failed_trades =
      st.failed_trades.map (fun r =>
        if r.id = tid then
          { r with retry_count := r.retry_count + 1, error_message := e }
        else r) := by
  unfold handle_failed_trade
  rcases ts with _ | s
  · dsimp only
    exact update_failed_retry st tid e
  · dsimp only
    rcases hfind : List.find? (fun p => p.1 = s.strategy_id)
        (update_failed_trade_status st tid "retry" (some e)).active_orders with _ | p <;>
      rw [hfind] <;> exact update_failed_retry st tid e

theorem place_order_fail (b : Broker) (ts : TradeSignal) (err : Nat → OrderParams → String)
    (hfail : ∀ n p, b.placeOrder n p = Except.error (err n p)) (st : EngState) :
    place_order b st ts =
      ({ st with placeCalls := st.placeCalls ++ [order_params_of ts] },
        Except.error (err st.placeCalls.length (order_params_of ts))) := by
  unfold place_order
  dsimp only
  rw [hfail]


theorem etwr_fail (b : Broker) (ts : TradeSignal) (err : Nat → OrderParams → String)
    (hfail : ∀ n p, b.placeOrder n p = Except.error (err n p)) (st : EngState) (ir : Bool) :
    execute_trade_with_recovery b st ts ir =
      (let p := order_params_of ts
       let e := err (st.placeCalls.length + 1 + 1) p
       let st3 := { st with placeCalls := st.placeCalls ++ [p, p, p] }
       ((if ir then st3 else handle_failed_trade st3 (some ts) e none), Except.error e)) := by
  have hp := place_order_fail b ts err hfail
  simp only [execute_trade_with_recovery, etwrGo, hp]
  simp [List.append_assoc, List.length_append]

theorem execute_allfail_two_rows (b : Broker) (cfg : RiskConfig) (now : PyDateTime)
    (st : EngState) (ts ts1 : TradeSignal) (err : Nat → OrderParams → String)
    (hfail : ∀ n p, b.placeOrder n p = Except.error (err n p))
    (hopen : is_market_open now = true)
    (hval : validate_trade_signal b cfg st ts = (true, ts1)) :
    (execute_trade_signal b cfg now st ts).failed_trades =
      st.failed_trades ++
        [⟨st.nextFailedId, some (to_dict ts1),
            err (st.placeCalls.length + 1 + 1) (order_params_of ts1), 0, "pending"⟩,
          ⟨st.nextFailedId + 1, some (to_dict ts1),
            err (st.placeCalls.length + 1 + 1) (order_params_of ts1), 0, "pending"⟩] := by
  unfold execute_trade_signal
  rw [hopen, hval]
  dsimp only
  rw [etwr_fail b ts1 err hfail st false]
  simp only [reduceIte, not_true, Bool.false_eq_true, if_false]
  rw [(handle_failed_trade_log _ ts1 _).1, (handle_failed_trade_log _ ts1 _).1,
    (handle_failed_trade_log _ ts1 _).2]
  dsimp only
  simp [List.append_assoc]


theorem validate_sig0_goodstate (b : Broker) (hacct : b.accountInfo = Except.ok acct0)
    (st : EngState) (hpnl : st.daily_pnl = 0) :
    validate_trade_signal b cfg0 st sig0 = (true, sig0) := by
  unfold validate_trade_signal validation_price
  rw [hacct]
  simp [sig0, cfg0, acct0, hpnl]
  norm_num

/-- C1 counterexample: with a broker whose place-order call always raises, a
valid in-session signal that passes validation produces **two** `failed_trades`
rows (one from the final retry, one from the submit pipeline's exception
handler), not exactly one. -/
theorem C1_counterexample :
    (execute_trade_signal failBroker cfg0 t0 initState sig0).failed_trades.length ≠ 1 ∧
      (execute_trade_signal failBroker cfg0 t0 initState sig0).failed_trades.length = 2 := by
  have h := execute_allfail_two_rows failBroker cfg0 t0 initState sig0 sig0
    (fun _ _ => "boom") (fun _ _ => rfl) (by decide)
    (validate_sig0_goodstate failBroker rfl initState rfl)
  rw [h]
  exact ⟨by decide, by decide⟩

/-- C1 amended: when every broker place-order call raises, the submit
pipeline logs exactly **two** `failed_trades` rows for the signal — one from
the final retry inside `execute_trade_with_recovery`, one from
`execute_trade_signal`'s exception handler — each with `status='pending'` and
`retry_count=0`. -/
theorem C1_amended_two_pending_rows (b : Broker) (cfg : RiskConfig) (now : PyDateTime)
    (st : EngState) (ts ts1 : TradeSignal) (err : Nat → OrderParams → String)
    (hfail : ∀ n p, b.placeOrder n p = Except.error (err n p))
    (hopen : is_market_open now = true)
    (hval : validate_trade_signal b cfg st ts = (true, ts1)) :
    (execute_trade_signal b cfg now st ts).failed_trades =
      st.failed_trades ++
        [⟨st.nextFailedId, some (to_dict ts1),
            err (st.placeCalls.length + 1 + 1) (order_params_of ts1), 0, "pending"⟩,
          ⟨st.nextFailedId + 1, some (to_dict ts1),
            err (st.placeCalls.length + 1 + 1) (order_params_of ts1), 0, "pending"⟩] :=
  execute_allfail_two_rows b cfg now st ts ts1 err hfail hopen hval

/-- C1 amended, witnessed at the concrete always-failing broker. -/
theorem C1_amended_witness :
    (execute_trade_signal failBroker cfg0 t0 initState sig0).failed_trades =
      initState.failed_trades ++
        [⟨initState.nextFailedId, some (to_dict sig0),
            "boom", 0, "pending"⟩,
          ⟨initState.nextFailedId + 1, some (to_dict sig0),
            "boom", 0, "pending"⟩] :=
  C1_amended_two_pending_rows failBroker cfg0 t0 initState sig0 sig0
    (fun _ _ => "boom") (fun _ _ => rfl) (by decide)
    (validate_sig0_goodstate failBroker rfl initState rfl)


theorem update_failed_set_status (st : EngState) (tid : Nat) (s : String)
    (msg : Option String) (h : ¬s = "retry") :
    (update_failed_trade_status st tid s msg).failed_trades =
      st.failed_trades.map (fun r => if r.id = tid then { r with status := s } else r) := by
  unfold update_failed_trade_status
  rw [if_neg h]

set_option maxHeartbeats 1000000 in
/-- C2 amended: on one recovery-task invocation for a `failed_trades` row
whose stored signal deserializes and passes validation: a successful
re-submission sets the row's status to `resolved`; a failed re-submission
below the retry maximum (`max_retries = 3`) increments the row's
`retry_count` and records the new error **but leaves the `status` column
unchanged** (it stays `pending`; no `retry` status is ever written); a failed
re-submission with `retry_count + 1` at the maximum sets the status to
`failed`. -/
theorem C2_amended_recovery_transitions (b : Broker) (cfg : RiskConfig)
    (st st1 : EngState) (tid : Nat) (sig : SignalDict) (rc : Nat)
    (ts0 ts1 : TradeSignal)
    (hfrom : from_dict sig = Except.ok ts0)
    (hval : validate_trade_signal b cfg st ts0 = (true, ts1)) :
    (∀ r : Bool, execute_trade_with_recovery b st ts1 true = (st1, Except.ok r) →
      (recover_single_failed_trade b cfg st tid sig rc).failed_trades =
        st1.failed_trades.map (fun row =>
          if row.id = tid then { row with status := "resolved" } else row)) ∧
    (∀ e : String, execute_trade_with_recovery b st ts1 true = (st1, Except.error e) →
      (rc + 1 < 3 →
        (recover_single_failed_trade b cfg st tid sig rc).failed_trades =
          st1.failed_trades.map (fun row =>
            if row.id = tid then
              { row with retry_count := row.retry_count + 1, error_message := e }
            else row)) ∧
      (rc + 1 ≥ 3 →
        (recover_single_failed_trade b cfg st tid sig rc).failed_trades =
          st1.failed_trades.map (fun row =>
            if row.id = tid then { row with status := "failed" } else row))) := by
  constructor
  · intro r hex
    unfold recover_single_failed_trade
    rw [hfrom]
    dsimp only
    rw [hval]
    dsimp only
    rw [hex]
    exact update_failed_set_status st1 tid "resolved" none (by decide)
  · intro e hex
    constructor
    · intro hrc
      unfold recover_single_failed_trade
      rw [hfrom]
      dsimp only
      rw [hval]
      dsimp only
      rw [hex]
      dsimp only
      rw [if_neg (by omega)]
      exact handle_failed_trade_retry st1 (some ts1) e tid
    · intro hrc
      unfold recover_single_failed_trade
      rw [hfrom]
      dsimp only
      rw [hval]
      dsimp only
      rw [hex]
      dsimp only
      rw [if_pos hrc]
      exact update_failed_set_status st1 tid "failed" none (by decide)


/-- A database holding one pending `failed_trades` row (id 1) that stores the
serialized `sig0`. -/
def stC2 : EngState :=
  { initState with
    failed_trades := [⟨1, some (to_dict sig0), "old", 0, "pending"⟩],
    nextFailedId := 2 }

/-- C2 counterexample: one failing recovery attempt on a pending row with
`retry_count = 0` increments the count and records the new error, but the
row's status stays `pending` — it is never set to `retry` as claimed (the
`'retry'` branch of `update_failed_trade_status` does not touch the `status`
column). -/
theorem C2_counterexample :
    ((recover_single_failed_trade failBroker cfg0 stC2 1 (to_dict sig0) 0).failed_trades.map
        (fun r => (r.status, r.retry_count))) = [("pending", 1)] ∧
      ("pending" : String) ≠ "retry" := by
  constructor
  · unfold recover_single_failed_trade
    rw [show from_dict (to_dict sig0) = Except.ok sig0 from rfl]
    dsimp only
    rw [validate_sig0_goodstate failBroker rfl stC2 rfl]
    dsimp only
    rw [etwr_fail failBroker sig0 (fun _ _ => "boom") (fun _ _ => rfl) stC2 true]
    dsimp only
    rw [if_neg (by omega : ¬(0 + 1 ≥ 3))]
    rw [handle_failed_trade_retry]
    rfl
  · decide

/-- C2 amended, witnessed on the failure-below-maximum path at a concrete
always-failing broker: the pending row's retry count becomes 1, the new error
is recorded, and the status column is untouched. -/
theorem C2_amended_witness :
    (recover_single_failed_trade failBroker cfg0 stC2 1 (to_dict sig0) 0).failed_trades =
      stC2.failed_trades.map (fun row =>
        if row.id = 1 then
          { row with retry_count := row.retry_count + 1, error_message := "boom" }
        else row) :=
  ((C2_amended_recovery_transitions failBroker cfg0 stC2 _ 1 (to_dict sig0) 0 sig0 sig0
      rfl (validate_sig0_goodstate failBroker rfl stC2 rfl)).2 "boom"
    (etwr_fail failBroker sig0 (fun _ _ => "boom") (fun _ _ => rfl) stC2 true)).1
    (by omega)


theorem update_failed_placeCalls (st : EngState) (tid : Nat) (s : String)
    (msg : Option String) :
    (update_failed_trade_status st tid s msg).placeCalls = st.placeCalls := by
  unfold update_failed_trade_status
  split_ifs <;> rfl

theorem update_order_placeCalls (st : EngState) (o : OrderInfo) :
    (update_order st o).placeCalls = st.placeCalls := by
  unfold update_order
  dsimp only
  split_ifs <;> rfl

theorem update_daily_pnl_placeCalls (b : Broker) (st : EngState) :
    (update_daily_pnl b st).placeCalls = st.placeCalls := by
  unfold update_daily_pnl
  rcases hb : b.accountInfo with e | a <;> rfl

theorem checkStatusGo_placeCalls (b : Broker) (oid : String) :
    ∀ (fuel : Nat) (st : EngState),
      (checkStatusGo b oid fuel st).1.placeCalls = st.placeCalls := by
  intro fuel
  induction fuel with
  | zero => intro st; rfl
  | succ n ih =>
    intro st
    unfold checkStatusGo
    dsimp only
    rcases hb : b.getOrderStatus st.statusCalls oid with e | order
    · rfl
    · dsimp only
      split_ifs with h1 h2
      · rw [update_daily_pnl_placeCalls, update_order_placeCalls]
      · rw [update_order_placeCalls]
      · rw [ih, update_order_placeCalls]

theorem place_order_placeCalls (b : Broker) (st : EngState) (ts : TradeSignal) :
    (place_order b st ts).1.placeCalls = st.placeCalls ++ [order_params_of ts] := by
  unfold place_order
  dsimp only
  rcases hb : b.placeOrder st.placeCalls.length (order_params_of ts) with e | order
  · rfl
  · dsimp only
    simp only [check_order_status]
    rw [checkStatusGo_placeCalls]
    rfl

theorem etwrGo_places (b : Broker) (ts : TradeSignal) (ir : Bool) :
    ∀ (fuel : Nat) (st : EngState), fuel ≠ 0 →
      st.placeCalls.length + 1 ≤ (etwrGo b ts ir fuel st).1.placeCalls.length := by
  intro fuel
  induction fuel with
  | zero => intro st h; exact absurd rfl h
  | succ n ih =>
    intro st _
    unfold etwrGo
    rcases hp : place_order b st ts with ⟨st1, res⟩
    have hlen : st1.placeCalls.length = st.placeCalls.length + 1 := by
      have h := place_order_placeCalls b st ts
      rw [hp] at h
      dsimp only at h
      rw [h]
      simp
    rcases res with e | r
    · dsimp only
      by_cases hn : n = 0
      · rw [if_pos hn]
        have hcond : ((if ir then st1 else handle_failed_trade st1 (some ts) e none) :
            EngState).placeCalls = st1.placeCalls := by
          cases ir
          · simp [handle_failed_trade_placeCalls]
          · simp
        dsimp only
        rw [hcond]
        omega
      · rw [if_neg hn]
        have h2 := ih st1 hn
        omega
    · dsimp only
      omega

theorem etwr_places (b : Broker) (st : EngState) (ts : TradeSignal) (ir : Bool) :
    st.placeCalls.length + 1 ≤
      (execute_trade_with_recovery b st ts ir).1.placeCalls.length :=
  etwrGo_places b ts ir 3 st (by omega)


/-- C3 counterexample: while the market session is closed (08:00), one
recovery-task invocation on a pending row whose signal passes risk validation
**does call** the broker's place operation (one `place_order_async` request)
and marks the row `resolved` — the recovery path never consults
`is_market_open`, so the market-session rejection is not applied to recovered
signals. -/
theorem C3_counterexample :
    is_market_open t8 = false ∧
      (recover_single_failed_trade goodBroker cfg0 stC2 1 (to_dict sig0) 0).placeCalls.length = 1 ∧
      (recover_single_failed_trade goodBroker cfg0 stC2 1 (to_dict sig0) 0).failed_trades.map
          (fun r => r.status) = ["resolved"] := by
  refine ⟨by decide, ?_, ?_⟩ <;>
  · unfold recover_single_failed_trade
    rw [show from_dict (to_dict sig0) = Except.ok sig0 from rfl]
    dsimp only
    rw [validate_sig0_goodstate goodBroker rfl stC2 rfl]
    dsimp only
    decide

/-- C3 amended: the recovery task re-validates each reconstructed signal
against the **risk** rules only: a validation rejection routes the row to the
retry path without any broker place call, but a signal that passes risk
validation is re-submitted to the broker unconditionally — the market-session
check (`is_market_open`) is consulted only by `execute_trade_signal`, never
during recovery, so recovered signals are placed regardless of the session
clock. -/
theorem C3_amended_no_market_gate (b : Broker) (cfg : RiskConfig) (st : EngState)
    (tid : Nat) (sig : SignalDict) (rc : Nat) (ts0 ts1 : TradeSignal)
    (hfrom : from_dict sig = Except.ok ts0) :
    (validate_trade_signal b cfg st ts0 = (false, ts1) →
      (recover_single_failed_trade b cfg st tid sig rc).placeCalls = st.placeCalls ∧
      (recover_single_failed_trade b cfg st tid sig rc).failed_trades =
        st.failed_trades.map (fun row =>
          if row.id = tid then
            { row with
              retry_count := row.retry_count + 1
              error_message := "Trade signal validation failed during recovery" }
          else row)) ∧
    (validate_trade_signal b cfg st ts0 = (true, ts1) →
      st.placeCalls.length + 1 ≤
        (recover_single_failed_trade b cfg st tid sig rc).placeCalls.length) := by
  constructor
  · intro hval
    unfold recover_single_failed_trade
    rw [hfrom]
    dsimp only
    rw [hval]
    dsimp only
    exact ⟨handle_failed_trade_placeCalls st (some ts1) _ (some tid),
      handle_failed_trade_retry st (some ts1) _ tid⟩
  · intro hval
    unfold recover_single_failed_trade
    rw [hfrom]
    dsimp only
    rw [hval]
    dsimp only
    rcases hex : execute_trade_with_recovery b st ts1 true with ⟨st1, res⟩
    have hge := etwr_places b st ts1 true
    rw [hex] at hge
    dsimp only at hge
    rcases res with e | r
    · dsimp only
      by_cases hrc : rc + 1 ≥ 3
      · rw [if_pos hrc, update_failed_placeCalls]
        exact hge
      · rw [if_neg hrc, handle_failed_trade_placeCalls]
        exact hge
    · dsimp only
      rw [update_failed_placeCalls]
      exact hge

/-- C3 amended, witnessed: the concrete recovery above performs at least one
broker place call. -/
theorem C3_amended_witness :
    stC2.placeCalls.length + 1 ≤
      (recover_single_failed_trade goodBroker cfg0 stC2 1 (to_dict sig0) 0).placeCalls.length :=
  (C3_amended_no_market_gate goodBroker cfg0 stC2 1 (to_dict sig0) 0 sig0 sig0 rfl).2
    (validate_sig0_goodstate goodBroker rfl stC2 rfl)


/-- The evaluation price of the risk checks, as the spec states it: the limit
price for limit orders, the stop price for stop orders, otherwise the
reference price, defaulting to 0 when absent (market orders). -/
def evaluation_price (ts : TradeSignal) : ℚ :=
  if ts.order_type = "limit" then ts.limit_price.getD 0
  else if ts.order_type = "stop" then ts.stop_price.getD 0
  else ts.price.getD 0

theorem validation_price_default (ts : TradeSignal)
    (hmkt : ts.order_type = "market" ∨ ts.order_type = "limit" ∨ ts.order_type = "stop")
    (hlim : ts.order_type = "limit" → ts.limit_price ≠ none)
    (hstop : ts.order_type = "stop" → ts.stop_price ≠ none) :
    validation_price (if ts.price = none ∧ ts.order_type = "market" then
        { ts with price := some 0 } else ts) = some (evaluation_price ts) := by
  unfold validation_price evaluation_price
  by_cases hm : ts.price = none ∧ ts.order_type = "market"
  · rw [if_pos hm]
    obtain ⟨hp, ho⟩ := hm
    simp [ho, hp]
  · rw [if_neg hm]
    by_cases hl : ts.order_type = "limit"
    · rcases Option.ne_none_iff_exists'.mp (hlim hl) with ⟨l, hval⟩
      simp [hl, hval]
    · by_cases hst : ts.order_type = "stop"
      · rcases Option.ne_none_iff_exists'.mp (hstop hst) with ⟨s, hval⟩
        simp [hl, hst, hval]
      · have ho : ts.order_type = "market" := by tauto
        have hp : ts.price ≠ none := fun hnone => hm ⟨hnone, ho⟩
        rcases Option.ne_none_iff_exists'.mp hp with ⟨p, hval⟩
        simp [hl, hst, hval]

theorem validate_caps_false (b : Broker) (cfg : RiskConfig) (st : EngState)
    (ts : TradeSignal) (acct : AccountInfo)
    (hacct : b.accountInfo = Except.ok acct)
    (hmkt : ts.order_type = "market" ∨ ts.order_type = "limit" ∨ ts.order_type = "stop")
    (hlim : ts.order_type = "limit" → ts.limit_price ≠ none)
    (hstop : ts.order_type = "stop" → ts.stop_price ≠ none)
    (hcap : ts.quantity * evaluation_price ts >
        acct.portfolio_value * cfg.max_position_size_pct ∨
      ts.quantity * evaluation_price ts > cfg.max_order_value) :
    (validate_trade_signal b cfg st ts).1 = false := by
  unfold validate_trade_signal
  rw [hacct]
  dsimp only
  rw [validation_price_default ts hmkt hlim hstop]
  dsimp only
  rw [show (if ts.price = none ∧ ts.order_type = "market" then
      { ts with price := some 0 } else ts).quantity = ts.quantity from by
    split_ifs <;> rfl]
  rcases hcap with hc | hc
  · rw [if_pos hc]
  · by_cases hd : ts.quantity * evaluation_price ts >
        acct.portfolio_value * cfg.max_position_size_pct
    · rw [if_pos hd]
    · rw [if_neg hd, if_pos hc]

set_option maxHeartbeats 1000000 in
/-- C5: for every well-formed signal whose order value
`quantity × evaluation_price` exceeds either the relative position cap
(`max_position_size_pct × portfolio_value`) or the absolute
`max_order_value` cap, the submit pipeline never calls the broker's
place-order operation (the trace of place calls is unchanged). -/
theorem C5_caps_never_place (b : Broker) (cfg : RiskConfig) (now : PyDateTime)
    (st : EngState) (ts : TradeSignal) (acct : AccountInfo)
    (hmkt : ts.order_type = "market" ∨ ts.order_type = "limit" ∨ ts.order_type = "stop")
    (hlim : ts.order_type = "limit" → ts.limit_price ≠ none)
    (hstop : ts.order_type = "stop" → ts.stop_price ≠ none)
    (hacct : b.accountInfo = Except.ok acct)
    (hcap : ts.quantity * evaluation_price ts >
        acct.portfolio_value * cfg.max_position_size_pct ∨
      ts.quantity * evaluation_price ts > cfg.max_order_value) :
    (execute_trade_signal b cfg now st ts).placeCalls = st.placeCalls := by
  unfold execute_trade_signal
  by_cases hopen : is_market_open now = true
  · rw [if_neg (not_not_intro hopen)]
    rcases hv : validate_trade_signal b cfg st ts with ⟨v, ts1⟩
    have hfalse := validate_caps_false b cfg st ts acct hacct hmkt hlim hstop hcap
    rw [hv] at hfalse
    dsimp only at hfalse
    subst hfalse
    dsimp only
    exact handle_failed_trade_placeCalls st (some ts1) _ none
  · rw [if_pos hopen]
    exact handle_failed_trade_placeCalls st (some ts) _ none

/-- A valid market-order signal whose order value (1000 × 150 = 150000)
exceeds both risk caps of `cfg0`. -/
def bigSig : TradeSignal :=
  ⟨"AAPL", "BUY", 1000, "test_strategy", t0, some 150, "market", none, none, "gtc"⟩

/-- C5, witnessed: submitting the oversized `bigSig` leaves the place-call
trace empty. -/
theorem C5_caps_witness :
    (execute_trade_signal goodBroker cfg0 t0 initState bigSig).placeCalls =
      initState.placeCalls :=
  C5_caps_never_place goodBroker cfg0 t0 initState bigSig acct0
    (by decide) (by decide) (by decide) rfl
    (Or.inl (by
      simp [evaluation_price, bigSig, cfg0, acct0]
      norm_num))


/-- Two open positions for the bulk-liquidation scenario. -/
def posAAA : Position := ⟨"AAA", 1⟩

/-- The second position; its broker calls succeed. -/
def posBBB : Position := ⟨"BBB", 2⟩

/-- A broker for bulk liquidation: every place-order call for ticker `AAA`
raises, while `BBB` orders are accepted and report filled. -/
def liqBroker : Broker :=
  ⟨Except.ok acct0,
    fun _ p => if p.symbol = "AAA" then Except.error "boom"
      else Except.ok (okOrder "oidB" p.symbol p.qty p.client_order_id),
    fun _ oid => Except.ok (filledOrder oid "BBB" 2 "liquidation"),
    Except.ok [posAAA, posBBB], Except.ok ()⟩

/-- C4 counterexample: in a bulk liquidation where `AAA`'s broker call fails
and `BBB`'s succeeds, the outcomes are **not** recorded independently: the
successful `BBB` liquidation keeps its single `orders` row but is **also**
re-recorded in `failed_trades` (one row), and the failing `AAA` gets **two**
`failed_trades` rows instead of one — the bulk failure handler logs an extra
row for every position. -/
theorem C4_counterexample :
    (liquidate_all_positions liqBroker t0 initState).1.orders.map
        (fun r => (r.order_id, r.ticker, r.status)) = [("oidB", "BBB", "filled")] ∧
      (liquidate_all_positions liqBroker t0 initState).1.failed_trades.countP
        (fun r => r.trade_signal.map (fun d => d.ticker) = some "BBB") = 1 ∧
      (liquidate_all_positions liqBroker t0 initState).1.failed_trades.countP
        (fun r => r.trade_signal.map (fun d => d.ticker) = some "AAA") = 2 := by
  refine ⟨by decide, by decide, by decide⟩

/-- C4 amended: during the bulk liquidation above, the failure of `AAA` does
not abort `BBB`'s liquidation and `BBB`'s `orders` row stands un-rolled-back;
but after any failure the exception handler of `liquidate_all_positions` logs
one additional `failed_trades` row for **every** position under strategy
`liquidation_recovery`, so `AAA` ends with two failed rows (its own retry
exhaustion plus the bulk handler's) and the successful `BBB` also ends with
one; the original exception is re-raised. -/
theorem C4_amended_bulk_relog :
    (liquidate_all_positions liqBroker t0 initState).1.orders.map
        (fun r => (r.order_id, r.ticker, r.status, r.side)) =
      [("oidB", "BBB", "filled", "sell")] ∧
      (liquidate_all_positions liqBroker t0 initState).1.failed_trades.map
          (fun r => ((r.trade_signal.map (fun d => d.ticker)).getD "",
            (r.trade_signal.map (fun d => d.strategy_id)).getD "",
            r.status, r.retry_count, r.error_message)) =
        [("AAA", "liquidation", "pending", 0, "boom"),
          ("AAA", "liquidation_recovery", "pending", 0, "Failed during bulk liquidation: boom"),
          ("BBB", "liquidation_recovery", "pending", 0, "Failed during bulk liquidation: boom")] ∧
      (liquidate_all_positions liqBroker t0 initState).2 = Except.error "boom" := by
  refine ⟨by decide, by decide, by decide⟩

end AiSmif
